import Mathlib

/-!
Shallow embedding of `backend/app/main.py` (FastAPI OIDC demo).

Conventions used throughout:
* JSON values produced by `response.json()` / carried in token headers and
  claim sets are modelled by the inductive `Json`; Python `None` is `Json.null`.
* Python truthiness (`if self.jwks`, `if not key`, `if not token`) is
  `Json.truthy` / emptiness checks on strings.
* `time.time()` is passed in as an integer `now`; the module-level mutable
  `jwks_cache` is threaded as explicit state.
* `os.environ` is modelled as an `Env` record passed to each call that reads
  it, because the source reads the environment inside the call
  (`CognitoConfig.__init__` runs inside `verify_access_token`).
* The external collaborators (httpx GET, `jose.jwt.get_unverified_header`,
  `jose.jwt.decode`) are oracles passed as parameters: the GET outcome is an
  `Except FetchError Json`, the two `jose` functions are function arguments.
-/

/-- JSON values (the result type of `response.json()`, token headers, claims).
Objects are association lists in document order. -/
inductive Json where
  | null
  | bool (b : Bool)
  | num (q : ℚ)
  | str (s : String)
  | arr (elems : List Json)
  | obj (fields : List (String × Json))
  deriving Repr

/-- Python truthiness of a JSON value (`bool(x)`):
`None`, `False`, `0`, `""`, `[]`, `{}` are falsy. -/
def Json.truthy : Json → Bool
  | .null => false
  | .bool b => b
  | .num q => q != 0
  | .str s => s != ""
  | .arr xs => !xs.isEmpty
  | .obj fs => !fs.isEmpty

mutual
/-- Python `==` on JSON values. `True == 1` numeric coercion is modelled;
object comparison is field-order-sensitive here (an approximation that is
exact on the string/None comparisons the program performs). -/
def pyEq : Json → Json → Bool
  | .null, .null => true
  | .bool a, .bool b => a == b
  | .bool a, .num n => (if a then (1 : ℚ) else 0) == n
  | .num n, .bool b => n == (if b then (1 : ℚ) else 0)
  | .num a, .num b => a == b
  | .str a, .str b => a == b
  | .arr as, .arr bs => pyEqList as bs
  | .obj as, .obj bs => pyEqFields as bs
  | _, _ => false

/-- Elementwise Python `==` on JSON arrays. -/
def pyEqList : List Json → List Json → Bool
  | [], [] => true
  | a :: as, b :: bs => pyEq a b && pyEqList as bs
  | _, _ => false

/-- Fieldwise Python `==` on JSON objects (order-sensitive approximation). -/
def pyEqFields : List (String × Json) → List (String × Json) → Bool
  | [], [] => true
  | (ka, va) :: as, (kb, vb) :: bs => ka == kb && pyEq va vb && pyEqFields as bs
  | _, _ => false
end

/-- First value bound to `key` in an association list (Python dict lookup,
`None`-free version: `none` when the key is absent). -/
def jsonLookup : List (String × Json) → String → Option Json
  | [], _ => none
  | (k, v) :: rest, key => if k == key then some v else jsonLookup rest key

/-- Python `d.get(key, default)` on the fields of a JSON object. -/
def dictGetD (fields : List (String × Json)) (key : String) (dflt : Json) : Json :=
  (jsonLookup fields key).getD dflt

/-- Python `d.get(key)` (default `None`). -/
def dictGet (fields : List (String × Json)) (key : String) : Json :=
  dictGetD fields key Json.null

/-- The environment variables read by `CognitoConfig.__init__`
(`os.environ.get(name, "")`: an absent variable is the empty string). -/
structure Env where
  region : String
  user_pool_id : String
  client_id : String
  deriving Repr, DecidableEq

/-- Record `CognitoConfig`: the three identity parameters, validated non-empty. -/
structure CognitoConfig where
  region : String
  user_pool_id : String
  client_id : String
  deriving Repr, DecidableEq

/-- The `ValueError` message raised by `CognitoConfig.__init__` (the two
adjacent Python string literals concatenate). -/
def cognitoConfigMsg : String :=
  "Missing Cognito config. Set COGNITO_REGION, COGNITO_USER_POOL_ID, and COGNITO_APP_CLIENT_ID."

/-- Constructor `CognitoConfig.__init__`: reads the three environment values and raises
`ValueError` if any is falsy (empty). -/
def CognitoConfig.ofEnv (env : Env) : Except String CognitoConfig :=
  if env.region == "" || env.user_pool_id == "" || env.client_id == "" then
    .error cognitoConfigMsg
  else
    .ok ⟨env.region, env.user_pool_id, env.client_id⟩

/-- The `issuer` property:
`f"https://cognito-idp.{self.region}.amazonaws.com/{self.user_pool_id}"`. -/
def CognitoConfig.issuer (c : CognitoConfig) : String :=
  "https://cognito-idp." ++ c.region ++ ".amazonaws.com/" ++ c.user_pool_id

/-- The `jwks_url` property: `f"{self.issuer}/.well-known/jwks.json"`. -/
def CognitoConfig.jwks_url (c : CognitoConfig) : String :=
  c.issuer ++ "/.well-known/jwks.json"

/-- Ways the remote JWKS GET can fail, all raised before any cache write:
`response.raise_for_status()` (non-2xx), a transport error from
`client.get`, or `response.json()` failing to parse. -/
inductive FetchError where
  | httpStatusError
  | networkError
  | jsonDecodeError
  deriving Repr, DecidableEq

/-- State of `JwksCache`: ttl (constructor default 3600), `cached_at`
(initially `0.0`) and the optional cached document. -/
structure JwksCache where
  ttl_seconds : Int
  cached_at : Int
  jwks : Option Json
  deriving Repr

/-- Outcome of one `JwksCache.get` call: the returned document or the
propagated exception, the cache state after the call, and how many network
fetches the call performed. -/
structure GetOutcome where
  result : Except FetchError Json
  cache : JwksCache
  fetches : Nat
  deriving Repr

/-- Method `JwksCache.get(url)`.  The Python guard is
`if self.jwks and (now - self.cached_at) < self.ttl_seconds` — note the
*truthiness* test on the document, not an `is not None` test.  On the fetch
path a failure propagates (no `try`), and the state is written only after
both `raise_for_status` and `json()` succeed. -/
def JwksCache.get (c : JwksCache) (now : Int) (fetch : Except FetchError Json) : GetOutcome :=
  if (c.jwks.getD Json.null).truthy && decide ((now - c.cached_at) < c.ttl_seconds) then
    { result := .ok (c.jwks.getD Json.null), cache := c, fetches := 0 }
  else
    match fetch with
    | .error e => { result := .error e, cache := c, fetches := 1 }
    | .ok j =>
      { result := .ok j
        cache := { c with jwks := some j, cached_at := now }
        fetches := 1 }

/-- Exceptions from the `jose` library that the source catches
(`except JWTError`). -/
structure JWTError where
  msg : String
  deriving Repr, DecidableEq

/-- The dynamic errors Python would raise on non-dict / non-iterable JSON
shapes (`AttributeError` on `.get`, `TypeError` on iteration); the source
does not catch these. -/
inductive PyErr where
  | attributeError
  | typeError
  deriving Repr, DecidableEq

/-- What a call of `verify_access_token` raises, as seen by FastAPI:
an `HTTPException(status, detail)` the function raised deliberately, or an
exception that escaped it uncaught (the framework turns those into a 500
server error). -/
inductive AppError where
  | http (status : Nat) (detail : String)
  | uncaughtFetch (e : FetchError)
  | uncaughtPy (e : PyErr)
  deriving Repr, DecidableEq

/-- A decoded token header / claim set: a Python dict from `jose`. -/
abbrev Claims := List (String × Json)

/-- Lowercase of one character in the ASCII range (Python `str.lower` is
exactly this on the scheme strings compared here). -/
def lowerChar (c : Char) : Char :=
  if c.toNat >= 65 ∧ c.toNat <= 90 then Char.ofNat (c.toNat + 32) else c

/-- Python `s.lower()` restricted to ASCII. -/
def pyLower (s : String) : String := String.mk (s.data.map lowerChar)

/-- Split a character list at its first space: the text before it and
everything after it; no space gives `(s, [])`. -/
def partitionChars : List Char → List Char × List Char
  | [] => ([], [])
  | c :: rest =>
    if c = ' ' then ([], rest)
    else
      let p := partitionChars rest
      (c :: p.1, p.2)

/-- Python `authorization.partition(" ")` projected to (scheme, token): the
text before the first space and everything after it (`(s, "")` when there
is no space). -/
def partitionSpace (s : String) : String × String :=
  (String.mk (partitionChars s.data).1, String.mk (partitionChars s.data).2)

/-- Python iteration over a JSON value, as used by the key-selection
generator: lists yield elements, strings yield one-character strings, dicts
yield their keys, other values raise `TypeError`. -/
def pyIter : Json → Except PyErr (List Json)
  | .arr xs => .ok xs
  | .str s => .ok (s.data.map fun ch => Json.str (String.mk [ch]))
  | .obj fs => .ok (fs.map fun p => Json.str p.1)
  | _ => .error .typeError

/-- The generator `next((k for k in ... if k.get("kid") == header.get("kid")), None)`:
scan for the first element whose `kid` field equals `target`; an element
without `.get` (a non-dict) raises `AttributeError` when reached. -/
def findKey : List Json → Json → Except PyErr (Option Json)
  | [], _ => .ok none
  | k :: rest, target =>
    match k with
    | .obj fs => if pyEq (dictGet fs "kid") target then .ok (some k) else findKey rest target
    | _ => .error .attributeError

/-- Steps 5–9 of `verify_access_token` (everything after the key-set fetch):
unverified-header parse, key selection by `kid`, `jwt.decode` with RS256 /
issuer / audience from the config, and the `token_use` gate.  These lines
touch no cache state.  `getUnverifiedHeader` stands for
`jose.jwt.get_unverified_header`; `decode token key issuer audience` stands
for `jose.jwt.decode(token, key, algorithms=["RS256"], issuer=issuer,
audience=audience)`. -/
def verifyToken (token : String) (config : CognitoConfig) (jwks : Json)
    (getUnverifiedHeader : String → Except JWTError Claims)
    (decode : String → Json → String → String → Except JWTError Claims) :
    Except AppError Claims :=
  match getUnverifiedHeader token with
  | .error _ => .error (.http 401 "Invalid token header")
  | .ok header =>
    match jwks with
    | .obj jfields =>
      match pyIter (dictGetD jfields "keys" (Json.arr [])) with
      | .error e => .error (.uncaughtPy e)
      | .ok elems =>
        match findKey elems (dictGet header "kid") with
        | .error e => .error (.uncaughtPy e)
        | .ok found =>
          if (found.getD Json.null).truthy = false then
            .error (.http 401 "Signing key not found")
          else
            match decode token (found.getD Json.null) config.issuer config.client_id with
            | .error _ => .error (.http 401 "Token verification failed")
            | .ok claims =>
              if pyEq (dictGet claims "token_use") (Json.str "access") then .ok claims
              else .error (.http 401 "Expected access token")
    | _ => .error (.uncaughtPy .attributeError)

/-- Outcome of one `verify_access_token` call: the claims or the raised /
escaped exception, the `jwks_cache` state after the call, and the number of
network fetches made. -/
structure VerifyOutcome where
  result : Except AppError Claims
  cache : JwksCache
  fetches : Nat
  deriving Repr

/-- Dependency `verify_access_token(authorization)`.  State threading: `env` is
`os.environ` at the moment of the call (read inside, by `CognitoConfig()`),
`cache` is the module-level `jwks_cache` on entry, `now` is `time.time()`,
`fetch` the outcome of the HTTP GET were one performed.  The call to
`jwks_cache.get` is **not** wrapped in `try`: a fetch failure escapes as
`uncaughtFetch`. -/
def verify_access_token (authorization : Option String) (env : Env)
    (cache : JwksCache) (now : Int) (fetch : Except FetchError Json)
    (getUnverifiedHeader : String → Except JWTError Claims)
    (decode : String → Json → String → String → Except JWTError Claims) :
    VerifyOutcome :=
  if (authorization.getD "") == "" then
    ⟨.error (.http 401 "Missing Authorization header"), cache, 0⟩
  else
    if pyLower (partitionSpace (authorization.getD "")).1 != "bearer"
        || (partitionSpace (authorization.getD "")).2 == "" then
      ⟨.error (.http 401 "Invalid Authorization header"), cache, 0⟩
    else
      match CognitoConfig.ofEnv env with
      | .error msg => ⟨.error (.http 500 msg), cache, 0⟩
      | .ok config =>
        match (cache.get now fetch).result with
        | .error e =>
          ⟨.error (.uncaughtFetch e), (cache.get now fetch).cache, (cache.get now fetch).fetches⟩
        | .ok jwks =>
          ⟨verifyToken (partitionSpace (authorization.getD "")).2 config jwks
              getUnverifiedHeader decode,
           (cache.get now fetch).cache, (cache.get now fetch).fetches⟩

/-- Contiguous-sublist test on character lists (Python substring `in`). -/
def charsContain (needle : List Char) : List Char → Bool
  | [] => needle.isPrefixOf []
  | c :: rest => needle.isPrefixOf (c :: rest) || charsContain needle rest

/-- Python `needle in container` for a string needle, as used by
`"admin" not in groups`: exact-equality membership for lists, substring
containment for strings, key membership for dicts, `TypeError` otherwise. -/
def pyInStr (needle : String) : Json → Except PyErr Bool
  | .arr xs => .ok (xs.any fun x => pyEq (Json.str needle) x)
  | .str hay => .ok (charsContain needle.data hay.data)
  | .obj fs => .ok (fs.any fun p => p.1 == needle)
  | _ => .error .typeError

/-- The `GET /api/admin/reports` handler body, given the validated claims:
403 unless `"admin"` is in `claims.get("cognito:groups", [])`, else the
fixed report payload with `generated_by = claims.get("username")`. -/
def admin_reports (claims : Claims) : Except AppError Json :=
  match pyInStr "admin" (dictGetD claims "cognito:groups" (Json.arr [])) with
  | .error e => .error (.uncaughtPy e)
  | .ok false => .error (.http 403 "Admin access required")
  | .ok true =>
    .ok (Json.obj
      [("generated_by", dictGet claims "username"),
       ("summary", Json.obj
         [("active_users", Json.num 42),
          ("monthly_volume", Json.num (1234567 / 100 : ℚ))])])

/-- Count of the slash character in a string (used to compare URL shapes). -/
def countSlash (s : String) : Nat := s.data.count '/'

/-- Test whether a verification outcome is a deliberately raised
`HTTPException` with status 401. -/
def isHttp401 : Except AppError Claims → Bool
  | .error (.http 401 _) => true
  | _ => false

/-! ## Helper lemmas -/

theorem countSlash_append (a b : String) :
    countSlash (a ++ b) = countSlash a + countSlash b := by
  simp [countSlash, String.data_append, List.count_append]

theorem jwksCache_get_stale (c : JwksCache) (now : Int) (fetch : Except FetchError Json)
    (h : ((c.jwks.getD Json.null).truthy
        && decide ((now - c.cached_at) < c.ttl_seconds)) = false) :
    c.get now fetch =
      match fetch with
      | .error e => ⟨.error e, c, 1⟩
      | .ok j => ⟨.ok j, { c with jwks := some j, cached_at := now }, 1⟩ := by
  simp only [JwksCache.get, h, Bool.false_eq_true, if_false]

theorem jwksCache_get_fresh (c : JwksCache) (now : Int) (fetch : Except FetchError Json)
    (d : Json) (hd : c.jwks = some d) (ht : d.truthy = true)
    (hage : now - c.cached_at < c.ttl_seconds) :
    c.get now fetch = ⟨.ok d, c, 0⟩ := by
  simp [JwksCache.get, hd, ht, hage]

/-! ## Claim C4 -/

/-- C4: a `get` call whose refresh attempt fails (non-2xx status, transport
error, or unparseable body — any `FetchError`) leaves the stored document
and the stored fetch timestamp unchanged: `self.jwks` and `self.cached_at`
are assigned only after the fetch and the JSON parse both succeed, so a
failure commits nothing (and never overwrites with null/partial data). -/
theorem claim_C4_failed_refresh_state_untouched (c : JwksCache) (now : Int)
    (e : FetchError) (d : Json) (hd : c.jwks = some d) :
    (c.get now (.error e)).cache = c := by
  by_cases h : ((c.jwks.getD Json.null).truthy
      && decide ((now - c.cached_at) < c.ttl_seconds)) = true
  · simp only [JwksCache.get, h, if_true]
  · rw [jwksCache_get_stale c now (.error e) (by simpa using h)]

/-- Witness for C4 at a concrete stale cache with a failing fetch. -/
theorem claim_C4_witness :
    (JwksCache.get ⟨3600, 5, some (Json.obj [("keys", Json.arr [])])⟩ 9999
        (.error .httpStatusError)).cache
      = ⟨3600, 5, some (Json.obj [("keys", Json.arr [])])⟩ :=
  claim_C4_failed_refresh_state_untouched _ 9999 .httpStatusError _ rfl

/-! ## Claim C2 -/

/-- C2 counterexample: a cache holding a previously fetched document, a
`get` call past the ttl whose remote fetch fails.  The claim says the call
still returns the previously cached document; the code has no `try` around
the fetch, so the call returns the fetch failure instead. -/
theorem claim_C2_counterexample :
    (⟨3600, 0, some (Json.obj [("keys", Json.arr [])])⟩ : JwksCache).jwks
        = some (Json.obj [("keys", Json.arr [])])
    ∧ (3600 : Int) ≤ 5000 - 0
    ∧ (JwksCache.get ⟨3600, 0, some (Json.obj [("keys", Json.arr [])])⟩ 5000
        (.error .httpStatusError)).result = .error .httpStatusError :=
  ⟨rfl, by norm_num, rfl⟩

/-- C2 amended: when a `get` call on a cache holding a previously fetched
document sees its age reach the ttl and the refresh fetch fails, the call
*fails*, propagating the fetch error (it does not fall back to the cached
document); the previously cached document and timestamp do remain stored,
data-equal to before the failed attempt. -/
theorem claim_C2_failed_refresh_propagates (c : JwksCache) (now : Int)
    (e : FetchError) (d : Json) (hd : c.jwks = some d)
    (hstale : c.ttl_seconds ≤ now - c.cached_at) :
    (c.get now (.error e)).result = .error e ∧ (c.get now (.error e)).cache = c := by
  have hcond : ((c.jwks.getD Json.null).truthy
      && decide ((now - c.cached_at) < c.ttl_seconds)) = false := by
    have : ¬ (now - c.cached_at < c.ttl_seconds) := not_lt.mpr hstale
    simp [this]
  rw [jwksCache_get_stale c now (.error e) hcond]
  exact ⟨rfl, rfl⟩

/-- Witness for C2 (amended) at a concrete stale cache and failing fetch. -/
theorem claim_C2_witness :
    (JwksCache.get ⟨3600, 0, some (Json.obj [("keys", Json.arr [])])⟩ 5000
        (.error .networkError)).result = .error .networkError
    ∧ (JwksCache.get ⟨3600, 0, some (Json.obj [("keys", Json.arr [])])⟩ 5000
        (.error .networkError)).cache = ⟨3600, 0, some (Json.obj [("keys", Json.arr [])])⟩ :=
  claim_C2_failed_refresh_propagates _ 5000 .networkError _ rfl (by norm_num)

/-! ## Claim C3 -/

/-- C3 counterexample: the freshness guard is `if self.jwks and ...`, a
*truthiness* test.  A present but empty document (`{}`) is falsy, so a
`get` call well inside the ttl still performs a network fetch: document
present and age < ttl does not imply "no network call". -/
theorem claim_C3_counterexample :
    (⟨3600, 100, some (Json.obj [])⟩ : JwksCache).jwks = some (Json.obj [])
    ∧ ((101 : Int) - 100 < 3600)
    ∧ (JwksCache.get ⟨3600, 100, some (Json.obj [])⟩ 101
        (.ok (Json.obj [("keys", Json.arr [])]))).fetches = 1 :=
  ⟨rfl, by norm_num, rfl⟩

/-- C3 amended: if a document is present, *Python-truthy* (in particular
non-empty), and its age is strictly below the ttl, `get` returns the cached
document with no network call and no state change; if the document is
absent or falsy, or the age is at least the ttl, a single `get` call
performs exactly one network fetch. -/
theorem claim_C3_freshness (c : JwksCache) (now : Int) (fetch : Except FetchError Json) :
    (∀ d : Json, c.jwks = some d → d.truthy = true → now - c.cached_at < c.ttl_seconds →
      c.get now fetch = ⟨.ok d, c, 0⟩)
    ∧ ((c.jwks.getD Json.null).truthy = false ∨ c.ttl_seconds ≤ now - c.cached_at →
      (c.get now fetch).fetches = 1) := by
  constructor
  · intro d hd ht hage
    exact jwksCache_get_fresh c now fetch d hd ht hage
  · intro h
    have hcond : ((c.jwks.getD Json.null).truthy
        && decide ((now - c.cached_at) < c.ttl_seconds)) = false := by
      rcases h with h | h
      · simp [h]
      · simp [not_lt.mpr h]
    rw [jwksCache_get_stale c now fetch hcond]
    cases fetch <;> rfl

/-- Witness for C3 (amended): a truthy fresh document is served with zero
fetches, and an expired entry triggers exactly one fetch. -/
theorem claim_C3_witness :
    JwksCache.get ⟨3600, 100, some (Json.obj [("keys", Json.arr [])])⟩ 101
        (.error .networkError)
      = ⟨.ok (Json.obj [("keys", Json.arr [])]),
         ⟨3600, 100, some (Json.obj [("keys", Json.arr [])])⟩, 0⟩
    ∧ (JwksCache.get ⟨3600, 100, some (Json.obj [("keys", Json.arr [])])⟩ 99999
        (.ok (Json.obj []))).fetches = 1 :=
  ⟨(claim_C3_freshness ⟨3600, 100, some (Json.obj [("keys", Json.arr [])])⟩ 101
      (.error .networkError)).1 _ rfl rfl (by norm_num),
   (claim_C3_freshness ⟨3600, 100, some (Json.obj [("keys", Json.arr [])])⟩ 99999
      (.ok (Json.obj []))).2 (Or.inr (by norm_num))⟩

/-! ## Claim C8 -/

/-- C8 counterexample: the claimed issuer shape
`https://<idp-host>/<region>/<userPoolId>` would put the region as a path
segment, giving at least four slashes; the code builds
`https://cognito-idp.<region>.amazonaws.com/<userPoolId>` — the region is
embedded in the host and the issuer has exactly three slashes, so no choice
of host makes the concrete issuer fit the claimed template. -/
theorem claim_C8_counterexample :
    ¬ ∃ host : String,
      CognitoConfig.issuer ⟨"r", "p", "c"⟩
        = "https://" ++ host ++ "/" ++ "r" ++ "/" ++ "p" := by
  rintro ⟨host, h⟩
  have h1 : countSlash (CognitoConfig.issuer ⟨"r", "p", "c"⟩) = 3 := by decide
  rw [h] at h1
  have h2 : countSlash ("https://" ++ host ++ "/" ++ "r" ++ "/" ++ "p")
      = 4 + countSlash host := by
    simp only [countSlash_append]
    have e1 : countSlash "https://" = 2 := by decide
    have e2 : countSlash "/" = 1 := by decide
    have e3 : countSlash "r" = 0 := by decide
    have e4 : countSlash "p" = 0 := by decide
    rw [e1, e2, e3, e4]
    omega
  rw [h2] at h1
  omega

/-- C8 amended: `CognitoConfig` construction fails with the configuration
`ValueError` exactly when any of region, user-pool id, or client id is the
empty string; on success the three fields are stored verbatim,
`issuer` equals `https://cognito-idp.<region>.amazonaws.com/<userPoolId>`
(region inside the host, the pool id as the sole path segment — not the
claimed `https://<idp-host>/<region>/<userPoolId>` template), and
`jwks_url` appends `/.well-known/jwks.json` to the issuer.  Determinism of
`issuer`/`jwks_url` in the three fields is definitional here: both are pure
functions of the `CognitoConfig` record. -/
theorem claim_C8_config (env : Env) :
    (CognitoConfig.ofEnv env = .error cognitoConfigMsg ↔
      env.region = "" ∨ env.user_pool_id = "" ∨ env.client_id = "")
    ∧ ∀ c : CognitoConfig, CognitoConfig.ofEnv env = .ok c →
        c.region = env.region ∧ c.user_pool_id = env.user_pool_id
        ∧ c.client_id = env.client_id
        ∧ c.issuer = "https://cognito-idp." ++ env.region ++ ".amazonaws.com/"
            ++ env.user_pool_id
        ∧ c.jwks_url = c.issuer ++ "/.well-known/jwks.json" := by
  constructor
  · unfold CognitoConfig.ofEnv
    split
    next hcond =>
      exact iff_of_true rfl (by simpa [or_assoc] using hcond)
    next hcond =>
      refine iff_of_false (by simp) ?_
      simpa [and_assoc] using hcond
  · intro c hc
    unfold CognitoConfig.ofEnv at hc
    split at hc
    · cases hc
    · cases hc
      exact ⟨rfl, rfl, rfl, rfl, rfl⟩

/-- Witness for C8 (amended): empty region rejected; a full config yields
the concrete issuer and JWKS URL. -/
theorem claim_C8_witness :
    CognitoConfig.ofEnv ⟨"", "p", "c"⟩ = .error cognitoConfigMsg
    ∧ CognitoConfig.issuer ⟨"r", "p", "c"⟩
        = "https://cognito-idp." ++ "r" ++ ".amazonaws.com/" ++ "p" :=
  ⟨(claim_C8_config ⟨"", "p", "c"⟩).1.mpr (Or.inl rfl),
   ((claim_C8_config ⟨"r", "p", "c"⟩).2 ⟨"r", "p", "c"⟩ rfl).2.2.2.1⟩

/-! ## Pipeline helper lemmas -/

/-- Reduction of `verify_access_token` through steps 1–3: once the header is
present, the scheme parses as bearer with a non-empty token, and the config
constructs, the call is the key-set fetch followed by the token pipeline. -/
theorem verify_reaches_fetch (a : String) (env : Env) (cfg : CognitoConfig)
    (cache : JwksCache) (now : Int) (fetch : Except FetchError Json)
    (gh : String → Except JWTError Claims)
    (d : String → Json → String → String → Except JWTError Claims)
    (ha : (a == "") = false)
    (hsch : pyLower (partitionSpace a).1 = "bearer")
    (htok : ((partitionSpace a).2 == "") = false)
    (hcfg : CognitoConfig.ofEnv env = .ok cfg) :
    verify_access_token (some a) env cache now fetch gh d =
      match (cache.get now fetch).result with
      | .error e =>
        ⟨.error (.uncaughtFetch e), (cache.get now fetch).cache, (cache.get now fetch).fetches⟩
      | .ok jwks =>
        ⟨verifyToken (partitionSpace a).2 cfg jwks gh d,
         (cache.get now fetch).cache, (cache.get now fetch).fetches⟩ := by
  unfold verify_access_token
  simp only [Option.getD_some, ha, hsch, htok, hcfg, Bool.false_eq_true, if_false,
    bne_self_eq_false, Bool.or_false, Bool.false_or]

theorem findKey_eq_none (ks : List Json) (target : Json)
    (h : ∀ k ∈ ks, ∃ fs, k = Json.obj fs ∧ pyEq (dictGet fs "kid") target = false) :
    findKey ks target = .ok none := by
  induction ks with
  | nil => rfl
  | cons k rest ih =>
    obtain ⟨fs, rfl, hf⟩ := h _ (List.mem_cons_self k rest)
    simp only [findKey, hf, Bool.false_eq_true, if_false]
    exact ih fun x hx => h x (List.mem_cons_of_mem _ hx)

/-! ## Claim C1 -/

/-- C1 counterexample: an empty cache, a failing JWKS fetch, an otherwise
well-formed request.  The claim says `verify` catches the fetch failure and
surfaces a 401-class error; in the code the `jwks_cache.get` call sits in
no `try` block, so the failure escapes `verify_access_token` uncaught (a
server-side 500 at the framework boundary), and no 401 `HTTPException` is
raised. -/
theorem claim_C1_counterexample :
    (verify_access_token (some "Bearer t") ⟨"r", "p", "c"⟩ ⟨3600, 0, none⟩ 1000
        (.error .networkError) (fun _ => .ok []) (fun _ _ _ _ => .error ⟨"sig"⟩)).result
      = .error (.uncaughtFetch .networkError)
    ∧ isHttp401
        (verify_access_token (some "Bearer t") ⟨"r", "p", "c"⟩ ⟨3600, 0, none⟩ 1000
          (.error .networkError) (fun _ => .ok []) (fun _ _ _ _ => .error ⟨"sig"⟩)).result
      = false :=
  ⟨rfl, rfl⟩

/-- C1 amended: for every request in which the remote JWKS fetch fails and
the cache cannot serve from memory (no cached document, a falsy one, or an
expired one), `verify_access_token` does **not** catch the failure: the
fetch error propagates out of the dependency uncaught — a server-side
failure, not a 401-family `HTTPException`. -/
theorem claim_C1_fetch_failure_uncaught (a : String) (env : Env) (cfg : CognitoConfig)
    (cache : JwksCache) (now : Int) (e : FetchError)
    (gh : String → Except JWTError Claims)
    (d : String → Json → String → String → Except JWTError Claims)
    (ha : (a == "") = false)
    (hsch : pyLower (partitionSpace a).1 = "bearer")
    (htok : ((partitionSpace a).2 == "") = false)
    (hcfg : CognitoConfig.ofEnv env = .ok cfg)
    (hmiss : ((cache.jwks.getD Json.null).truthy
        && decide ((now - cache.cached_at) < cache.ttl_seconds)) = false) :
    (verify_access_token (some a) env cache now (.error e) gh d).result
      = .error (.uncaughtFetch e)
    ∧ isHttp401 ((verify_access_token (some a) env cache now (.error e) gh d).result)
      = false := by
  rw [verify_reaches_fetch a env cfg cache now (.error e) gh d ha hsch htok hcfg,
    jwksCache_get_stale cache now (.error e) hmiss]
  exact ⟨rfl, rfl⟩

/-- Witness for C1 (amended) at a concrete request with an empty cache and
a non-2xx JWKS response. -/
theorem claim_C1_witness :
    (verify_access_token (some "Bearer t") ⟨"r", "p", "c"⟩ ⟨3600, 0, none⟩ 1000
        (.error .httpStatusError) (fun _ => .ok []) (fun _ _ _ _ => .ok [])).result
      = .error (.uncaughtFetch .httpStatusError)
    ∧ isHttp401
        (verify_access_token (some "Bearer t") ⟨"r", "p", "c"⟩ ⟨3600, 0, none⟩ 1000
          (.error .httpStatusError) (fun _ => .ok []) (fun _ _ _ _ => .ok [])).result
      = false :=
  claim_C1_fetch_failure_uncaught "Bearer t" ⟨"r", "p", "c"⟩ ⟨"r", "p", "c"⟩
    ⟨3600, 0, none⟩ 1000 .httpStatusError (fun _ => .ok []) (fun _ _ _ _ => .ok [])
    rfl rfl rfl rfl rfl

/-! ## Claim C10 -/

/-- C10: when the key-set retrieval succeeds, a failure in any later
verification step (header parse, key selection, signature/claim
verification, token-use check) leaves the `JwksCache` state — document and
timestamp — exactly as the retrieval step left it, and performs no further
fetch: steps 5–9 of the pipeline never write the cache, so invalid tokens
never mutate it. -/
theorem claim_C10_late_failure_frames_cache (a : String) (env : Env) (cfg : CognitoConfig)
    (cache : JwksCache) (now : Int) (fetch : Except FetchError Json)
    (gh : String → Except JWTError Claims)
    (d : String → Json → String → String → Except JWTError Claims)
    (jwks : Json) (err : AppError)
    (ha : (a == "") = false)
    (hsch : pyLower (partitionSpace a).1 = "bearer")
    (htok : ((partitionSpace a).2 == "") = false)
    (hcfg : CognitoConfig.ofEnv env = .ok cfg)
    (hjwks : (cache.get now fetch).result = .ok jwks)
    (hfail : (verify_access_token (some a) env cache now fetch gh d).result = .error err) :
    (verify_access_token (some a) env cache now fetch gh d).cache
      = (cache.get now fetch).cache
    ∧ (verify_access_token (some a) env cache now fetch gh d).fetches
      = (cache.get now fetch).fetches := by
  rw [verify_reaches_fetch a env cfg cache now fetch gh d ha hsch htok hcfg, hjwks]
  exact ⟨rfl, rfl⟩

/-- Witness for C10: a concrete request whose token-use gate fails; the
cache emerges exactly as the (successful, refreshing) retrieval left it. -/
theorem claim_C10_witness :
    (verify_access_token (some "Bearer t") ⟨"r", "p", "c"⟩ ⟨3600, 0, none⟩ 1000
        (.ok (Json.obj [("keys", Json.arr [Json.obj [("kid", Json.str "a")]])]))
        (fun _ => .ok [("kid", Json.str "a")])
        (fun _ _ _ _ => .ok [("token_use", Json.str "id")])).cache
      = (JwksCache.get ⟨3600, 0, none⟩ 1000
          (.ok (Json.obj [("keys", Json.arr [Json.obj [("kid", Json.str "a")]])]))).cache
    ∧ (verify_access_token (some "Bearer t") ⟨"r", "p", "c"⟩ ⟨3600, 0, none⟩ 1000
        (.ok (Json.obj [("keys", Json.arr [Json.obj [("kid", Json.str "a")]])]))
        (fun _ => .ok [("kid", Json.str "a")])
        (fun _ _ _ _ => .ok [("token_use", Json.str "id")])).fetches
      = (JwksCache.get ⟨3600, 0, none⟩ 1000
          (.ok (Json.obj [("keys", Json.arr [Json.obj [("kid", Json.str "a")]])]))).fetches :=
  claim_C10_late_failure_frames_cache "Bearer t" ⟨"r", "p", "c"⟩ ⟨"r", "p", "c"⟩
    ⟨3600, 0, none⟩ 1000
    (.ok (Json.obj [("keys", Json.arr [Json.obj [("kid", Json.str "a")]])]))
    (fun _ => .ok [("kid", Json.str "a")])
    (fun _ _ _ _ => .ok [("token_use", Json.str "id")])
    (Json.obj [("keys", Json.arr [Json.obj [("kid", Json.str "a")]])])
    (.http 401 "Expected access token")
    rfl rfl rfl rfl rfl rfl

/-! ## Claim C5 -/

/-- C5: a well-formed bearer request (presence, scheme, config, key-set
retrieval, and header parse all succeed) whose header `kid` matches no
entry of the retrieved key set fails with 401 "Signing key not found"
(`UnknownSigningKey`) for **every** possible signature/claim verifier —
in particular regardless of an expired timestamp — because key selection
by exact `kid` equality strictly precedes `jwt.decode`. -/
theorem claim_C5_unknown_kid_precedes_decode (a : String) (env : Env)
    (cfg : CognitoConfig) (cache : JwksCache) (now : Int)
    (fetch : Except FetchError Json) (gh : String → Except JWTError Claims)
    (header : Claims) (jfields : List (String × Json)) (ks : List Json)
    (ha : (a == "") = false)
    (hsch : pyLower (partitionSpace a).1 = "bearer")
    (htok : ((partitionSpace a).2 == "") = false)
    (hcfg : CognitoConfig.ofEnv env = .ok cfg)
    (hjwks : (cache.get now fetch).result = .ok (Json.obj jfields))
    (hhdr : gh (partitionSpace a).2 = .ok header)
    (hkeys : dictGetD jfields "keys" (Json.arr []) = Json.arr ks)
    (hnomatch : ∀ k ∈ ks, ∃ fs, k = Json.obj fs
        ∧ pyEq (dictGet fs "kid") (dictGet header "kid") = false) :
    ∀ d : String → Json → String → String → Except JWTError Claims,
      (verify_access_token (some a) env cache now fetch gh d).result
        = .error (.http 401 "Signing key not found") := by
  intro d
  rw [verify_reaches_fetch a env cfg cache now fetch gh d ha hsch htok hcfg, hjwks]
  show (verifyToken (partitionSpace a).2 cfg (Json.obj jfields) gh d) = _
  simp only [verifyToken, hhdr, hkeys, pyIter,
    findKey_eq_none ks (dictGet header "kid") hnomatch, Option.getD_none, Json.truthy,
    if_true]

/-- Witness for C5: an empty published key set, a decoder that would report
an expired signature — the outcome is still "Signing key not found". -/
theorem claim_C5_witness :
    (verify_access_token (some "Bearer t") ⟨"r", "p", "c"⟩
        ⟨3600, 900, some (Json.obj [("keys", Json.arr [])])⟩ 1000
        (.error .networkError) (fun _ => .ok [("kid", Json.str "b")])
        (fun _ _ _ _ => .error ⟨"Signature has expired"⟩)).result
      = .error (.http 401 "Signing key not found") :=
  claim_C5_unknown_kid_precedes_decode "Bearer t" ⟨"r", "p", "c"⟩ ⟨"r", "p", "c"⟩
    ⟨3600, 900, some (Json.obj [("keys", Json.arr [])])⟩ 1000
    (.error .networkError) (fun _ => .ok [("kid", Json.str "b")])
    [("kid", Json.str "b")] [("keys", Json.arr [])] []
    rfl rfl rfl rfl rfl rfl rfl
    (fun k hk => absurd hk (List.not_mem_nil k))
    (fun _ _ _ _ => .error ⟨"Signature has expired"⟩)

/-! ## Claim C6 -/

/-- C6: for a token that passes presence, scheme, configuration, key-set
retrieval, header parse, key selection (a truthy key found by `kid`), and
signature/claim decoding, the last gate is `claims.get("token_use") ==
"access"`: any other value — including the absent claim, which reads as
`None` — yields 401 "Expected access token" (`WrongTokenUse`), and exactly
the value `"access"` lets `verify` return the full decoded claim
mapping. -/
theorem claim_C6_token_use_gate (a : String) (env : Env) (cfg : CognitoConfig)
    (cache : JwksCache) (now : Int) (fetch : Except FetchError Json)
    (gh : String → Except JWTError Claims)
    (d : String → Json → String → String → Except JWTError Claims)
    (header : Claims) (jfields : List (String × Json)) (ks : List Json)
    (key : Json) (claims : Claims)
    (ha : (a == "") = false)
    (hsch : pyLower (partitionSpace a).1 = "bearer")
    (htok : ((partitionSpace a).2 == "") = false)
    (hcfg : CognitoConfig.ofEnv env = .ok cfg)
    (hjwks : (cache.get now fetch).result = .ok (Json.obj jfields))
    (hhdr : gh (partitionSpace a).2 = .ok header)
    (hkeys : dictGetD jfields "keys" (Json.arr []) = Json.arr ks)
    (hfind : findKey ks (dictGet header "kid") = .ok (some key))
    (hkey : key.truthy = true)
    (hdec : d (partitionSpace a).2 key cfg.issuer cfg.client_id = .ok claims) :
    (verify_access_token (some a) env cache now fetch gh d).result
      = if pyEq (dictGet claims "token_use") (Json.str "access") then .ok claims
        else .error (.http 401 "Expected access token") := by
  rw [verify_reaches_fetch a env cfg cache now fetch gh d ha hsch htok hcfg, hjwks]
  show (verifyToken (partitionSpace a).2 cfg (Json.obj jfields) gh d) = _
  simp only [verifyToken, hhdr, hkeys, pyIter, hfind, Option.getD_some, hkey,
    Bool.true_eq_false, if_false, hdec]

/-- Witness for C6: one run whose decoded claims carry
`token_use = "access"` (verification returns the claims) and one whose
claims lack `token_use` entirely (401 "Expected access token"). -/
theorem claim_C6_witness :
    (verify_access_token (some "Bearer t") ⟨"r", "p", "c"⟩
        ⟨3600, 900, some (Json.obj [("keys", Json.arr [Json.obj [("kid", Json.str "a")]])])⟩
        1000 (.error .networkError) (fun _ => .ok [("kid", Json.str "a")])
        (fun _ _ _ _ => .ok [("token_use", Json.str "access"), ("sub", Json.str "u1")])).result
      = .ok [("token_use", Json.str "access"), ("sub", Json.str "u1")]
    ∧ (verify_access_token (some "Bearer t") ⟨"r", "p", "c"⟩
        ⟨3600, 900, some (Json.obj [("keys", Json.arr [Json.obj [("kid", Json.str "a")]])])⟩
        1000 (.error .networkError) (fun _ => .ok [("kid", Json.str "a")])
        (fun _ _ _ _ => .ok [("sub", Json.str "u1")])).result
      = .error (.http 401 "Expected access token") :=
  ⟨(claim_C6_token_use_gate "Bearer t" ⟨"r", "p", "c"⟩ ⟨"r", "p", "c"⟩
      ⟨3600, 900, some (Json.obj [("keys", Json.arr [Json.obj [("kid", Json.str "a")]])])⟩
      1000 (.error .networkError) (fun _ => .ok [("kid", Json.str "a")])
      (fun _ _ _ _ => .ok [("token_use", Json.str "access"), ("sub", Json.str "u1")])
      [("kid", Json.str "a")] [("keys", Json.arr [Json.obj [("kid", Json.str "a")]])]
      [Json.obj [("kid", Json.str "a")]] (Json.obj [("kid", Json.str "a")])
      [("token_use", Json.str "access"), ("sub", Json.str "u1")]
      rfl rfl rfl rfl rfl rfl rfl rfl rfl rfl).trans (by rfl),
   (claim_C6_token_use_gate "Bearer t" ⟨"r", "p", "c"⟩ ⟨"r", "p", "c"⟩
      ⟨3600, 900, some (Json.obj [("keys", Json.arr [Json.obj [("kid", Json.str "a")]])])⟩
      1000 (.error .networkError) (fun _ => .ok [("kid", Json.str "a")])
      (fun _ _ _ _ => .ok [("sub", Json.str "u1")])
      [("kid", Json.str "a")] [("keys", Json.arr [Json.obj [("kid", Json.str "a")]])]
      [Json.obj [("kid", Json.str "a")]] (Json.obj [("kid", Json.str "a")])
      [("sub", Json.str "u1")]
      rfl rfl rfl rfl rfl rfl rfl rfl rfl rfl).trans (by rfl)⟩

/-! ## Claim C9 -/

/-- C9 counterexample: two `verify_access_token` calls identical in every
respect except the process environment between them.  The claim says both
calls use the same configuration values; in the code `CognitoConfig()` is
re-constructed from `os.environ` inside every call, so the second call
observes the changed environment (here: region cleared, turning a 401 into
a 500 configuration failure). -/
theorem claim_C9_counterexample :
    (verify_access_token (some "Bearer t") ⟨"r", "p", "c"⟩
        ⟨3600, 900, some (Json.obj [("keys", Json.arr [])])⟩ 1000
        (.ok (Json.obj [])) (fun _ => .error ⟨"bad"⟩) (fun _ _ _ _ => .error ⟨"no"⟩)).result
      = .error (.http 401 "Invalid token header")
    ∧ (verify_access_token (some "Bearer t") ⟨"", "p", "c"⟩
        ⟨3600, 900, some (Json.obj [("keys", Json.arr [])])⟩ 1000
        (.ok (Json.obj [])) (fun _ => .error ⟨"bad"⟩) (fun _ _ _ _ => .error ⟨"no"⟩)).result
      = .error (.http 500 cognitoConfigMsg) :=
  ⟨rfl, rfl⟩

/-- Congruence of steps 5–9 in the decoder: two decode functions that agree
at the issuer/audience pair derived from `cfg` produce an identical token
pipeline, because the pipeline consults the decoder only at that pair. -/
theorem verifyToken_decode_congr (token : String) (cfg : CognitoConfig) (jwks : Json)
    (gh : String → Except JWTError Claims)
    (d₁ d₂ : String → Json → String → String → Except JWTError Claims)
    (hd : ∀ tok key, d₁ tok key cfg.issuer cfg.client_id
        = d₂ tok key cfg.issuer cfg.client_id) :
    verifyToken token cfg jwks gh d₁ = verifyToken token cfg jwks gh d₂ := by
  unfold verifyToken
  split
  · rfl
  · split
    · split
      · rfl
      · split
        · rfl
        · split
          · rfl
          · rw [hd]
    · rfl

/-- C9 amended: the configuration is constructed afresh on every
`verify_access_token` call from the environment current at that call, and
is immutable within the call: the issuer and audience consulted by the
decoder are exactly those derived from that call's construction — two
decoders that agree on the issuer/audience derived from the current
environment make the call indistinguishable. -/
theorem claim_C9_config_per_call (auth : Option String) (env : Env)
    (cache : JwksCache) (now : Int) (fetch : Except FetchError Json)
    (gh : String → Except JWTError Claims)
    (d₁ d₂ : String → Json → String → String → Except JWTError Claims)
    (h : ∀ tok key cfg, CognitoConfig.ofEnv env = .ok cfg →
      d₁ tok key cfg.issuer cfg.client_id = d₂ tok key cfg.issuer cfg.client_id) :
    verify_access_token auth env cache now fetch gh d₁
      = verify_access_token auth env cache now fetch gh d₂ := by
  unfold verify_access_token
  split
  · rfl
  · split
    · rfl
    · split
      · rfl
      · next cfg hcfg =>
        split
        · rfl
        · rw [verifyToken_decode_congr _ cfg _ gh d₁ d₂ fun tok key => h tok key cfg hcfg]

/-- Witness for C9 (amended): two decoders that differ everywhere except at
the issuer derived from the current environment are indistinguishable to
the call. -/
theorem claim_C9_witness :
    verify_access_token (some "Bearer t") ⟨"r", "p", "c"⟩
        ⟨3600, 900, some (Json.obj [("keys", Json.arr [])])⟩ 1000 (.error .networkError)
        (fun _ => .error ⟨"bad"⟩) (fun _ _ _ _ => .ok [])
      = verify_access_token (some "Bearer t") ⟨"r", "p", "c"⟩
          ⟨3600, 900, some (Json.obj [("keys", Json.arr [])])⟩ 1000 (.error .networkError)
          (fun _ => .error ⟨"bad"⟩)
          (fun _ _ iss _ =>
            if iss == "https://cognito-idp.r.amazonaws.com/p" then .ok []
            else .error ⟨"z"⟩) :=
  claim_C9_config_per_call (some "Bearer t") ⟨"r", "p", "c"⟩
    ⟨3600, 900, some (Json.obj [("keys", Json.arr [])])⟩ 1000 (.error .networkError)
    (fun _ => .error ⟨"bad"⟩) (fun _ _ _ _ => .ok [])
    (fun _ _ iss _ =>
      if iss == "https://cognito-idp.r.amazonaws.com/p" then .ok [] else .error ⟨"z"⟩)
    (by
      intro tok key cfg hcfg
      rw [show CognitoConfig.ofEnv ⟨"r", "p", "c"⟩
          = .ok (⟨"r", "p", "c"⟩ : CognitoConfig) from rfl] at hcfg
      cases hcfg
      rfl)

/-! ## Claim C7 -/

theorem pyEq_str_iff (s : String) (v : Json) :
    pyEq (Json.str s) v = true ↔ v = Json.str s := by
  cases v with
  | null => rw [show pyEq (Json.str s) Json.null = false from rfl]; simp
  | bool b => rw [show pyEq (Json.str s) (Json.bool b) = false from rfl]; simp
  | num q => rw [show pyEq (Json.str s) (Json.num q) = false from rfl]; simp
  | str t =>
    rw [show pyEq (Json.str s) (Json.str t) = (s == t) from rfl]
    simp only [beq_iff_eq, Json.str.injEq]
    exact eq_comm
  | arr xs => rw [show pyEq (Json.str s) (Json.arr xs) = false from rfl]; simp
  | obj fs => rw [show pyEq (Json.str s) (Json.obj fs) = false from rfl]; simp

theorem any_pyEq_str (s : String) (xs : List Json) :
    (xs.any fun x => pyEq (Json.str s) x) = true ↔ Json.str s ∈ xs := by
  rw [List.any_eq_true]
  constructor
  · rintro ⟨x, hx, hpe⟩
    exact (pyEq_str_iff s x).mp hpe ▸ hx
  · intro hmem
    exact ⟨_, hmem, (pyEq_str_iff s _).mpr rfl⟩

/-- C7: on a validated claim set whose `cognito:groups` claim is a JSON
sequence (or absent, read as the empty sequence `xs = []`), the
admin-reports handler answers 403 "Admin access required" precisely when
the string `"admin"` is not an element of that sequence by exact string
equality; when it is an element the handler returns the 200 payload with
`generated_by` equal to the `username` claim and the fixed summary
object. -/
theorem claim_C7_admin_gate (claims : Claims) (xs : List Json)
    (hg : jsonLookup claims "cognito:groups" = some (Json.arr xs)
        ∨ (jsonLookup claims "cognito:groups" = none ∧ xs = [])) :
    (admin_reports claims = .error (.http 403 "Admin access required")
      ↔ Json.str "admin" ∉ xs)
    ∧ (Json.str "admin" ∈ xs →
      admin_reports claims = .ok (Json.obj
        [("generated_by", dictGet claims "username"),
         ("summary", Json.obj
           [("active_users", Json.num 42),
            ("monthly_volume", Json.num (1234567 / 100 : ℚ))])])) := by
  have hgroups : dictGetD claims "cognito:groups" (Json.arr []) = Json.arr xs := by
    rcases hg with h | ⟨h, rfl⟩ <;> simp [dictGetD, h]
  by_cases hmem : Json.str "admin" ∈ xs
  · have hany : (xs.any fun x => pyEq (Json.str "admin") x) = true :=
      (any_pyEq_str "admin" xs).mpr hmem
    refine ⟨?_, fun _ => ?_⟩
    · simp [admin_reports, hgroups, pyInStr, hany, hmem]
    · simp [admin_reports, hgroups, pyInStr, hany]
  · have hany : (xs.any fun x => pyEq (Json.str "admin") x) = false := by
      rw [Bool.eq_false_iff]
      intro hc
      exact hmem ((any_pyEq_str "admin" xs).mp hc)
    refine ⟨?_, fun hmem2 => absurd hmem2 hmem⟩
    simp [admin_reports, hgroups, pyInStr, hany, hmem]

/-- Witness for C7: a claim set with `groups = ["admin"]` gets the report
with `generated_by` from its username claim; `groups = ["users"]` gets
403. -/
theorem claim_C7_witness :
    admin_reports
        [("cognito:groups", Json.arr [Json.str "admin"]), ("username", Json.str "alice")]
      = .ok (Json.obj
          [("generated_by", Json.str "alice"),
           ("summary", Json.obj
             [("active_users", Json.num 42),
              ("monthly_volume", Json.num (1234567 / 100 : ℚ))])])
    ∧ admin_reports
        [("cognito:groups", Json.arr [Json.str "users"]), ("username", Json.str "alice")]
      = .error (.http 403 "Admin access required") :=
  ⟨(claim_C7_admin_gate
      [("cognito:groups", Json.arr [Json.str "admin"]), ("username", Json.str "alice")]
      [Json.str "admin"] (Or.inl rfl)).2 (List.mem_singleton.mpr rfl),
   (claim_C7_admin_gate
      [("cognito:groups", Json.arr [Json.str "users"]), ("username", Json.str "alice")]
      [Json.str "users"] (Or.inl rfl)).1.mpr (by
        intro h
        have h2 := List.mem_singleton.mp h
        injection h2 with h3
        exact absurd h3 (by decide))⟩
